import Mathlib

/-!
Verification development for the session / request-authorization subsystem of
the AI-Visual-Product-Search web client.

The embedding covers:
* the durable credential store (`localStorage` with the keys `token`,
  `auth_user`, `refresh_token`) and the helpers `saveAuthData`,
  `clearAuthData`, `getStoredAuth` from `src/utils/storage.ts`;
* the axios request interceptor and the 401/refresh response interceptor of
  `src/utils/api.ts`, modelled as an explicit state-passing execution over an
  environment that fixes the network's answers;
* the `auth` redux slice (`setCredentials`, `logout`) from
  `src/store/authSlice.ts`;
* the `wishlist` redux slice from `src/store/wishlistSlice.ts`.
-/

/-! ## The durable store (`localStorage`) -/

/-- `localStorage` modelled as an association list of string keys and values;
the newest binding for a key shadows older ones. -/
abbrev Store : Type := List (String × String)

/-- `localStorage.getItem(k)`: `none` plays the role of JavaScript `null`. -/
def getItem (st : Store) (k : String) : Option String :=
  match st.find? (fun kv => kv.1 = k) with
  | some kv => some kv.2
  | none => none

/-- `localStorage.setItem(k, v)`. -/
def setItem (st : Store) (k v : String) : Store :=
  (k, v) :: st.filter (fun kv => ¬ (kv.1 = k))

/-- `localStorage.removeItem(k)`. -/
def removeItem (st : Store) (k : String) : Store :=
  st.filter (fun kv => ¬ (kv.1 = k))

/-! ## Credential store (`src/utils/storage.ts`) -/

/-- `export const TOKEN_KEY = 'token'` -/
def TOKEN_KEY : String := "token"

/-- `export const USER_KEY = 'auth_user'` -/
def USER_KEY : String := "auth_user"

/-- The key `'refresh_token'` read by the 401 handler and by
`refreshAccessToken` in `src/utils/api.ts`. -/
def REFRESH_TOKEN_KEY : String := "refresh_token"

/-- `saveAuthData(token, user)` from `src/utils/storage.ts`:
`setItem(TOKEN_KEY, token); setItem(USER_KEY, JSON.stringify(user))`.
The JSON boundary is abstracted by the serializer `stringify` of the
caller's user type. -/
def saveAuthData {U : Type} (stringify : U → String)
    (st : Store) (token : String) (user : U) : Store :=
  setItem (setItem st TOKEN_KEY token) USER_KEY (stringify user)

/-- `clearAuthData()` from `src/utils/storage.ts`:
`removeItem(TOKEN_KEY); removeItem(USER_KEY)`. -/
def clearAuthData (st : Store) : Store :=
  removeItem (removeItem st TOKEN_KEY) USER_KEY

/-- `getStoredAuth()` from `src/utils/storage.ts`.  Returns the loaded
`{token, user}` (if any) together with the possibly self-healed store.
`parse` abstracts `JSON.parse`, returning `none` when parsing throws; the
guard `if (!token || !userStr) return null` treats both JavaScript `null`
and the empty string as absent and does not touch the store. -/
def getStoredAuth {U : Type} (parse : String → Option U)
    (st : Store) : Option (String × U) × Store :=
  match getItem st TOKEN_KEY, getItem st USER_KEY with
  | some token, some userStr =>
    if token = "" ∨ userStr = "" then (none, st)
    else
      match parse userStr with
      | some user => (some (token, user), st)
      | none => (none, clearAuthData st)
  | some _, none => (none, st)
  | none, some _ => (none, st)
  | none, none => (none, st)

/-! ## HTTP Client Core (`src/utils/api.ts`) -/

/-- The slice of an axios request config that the interceptors touch:
the `Authorization` header. -/
structure Request where
  authHeader : Option String
deriving DecidableEq, Repr

/-- The request interceptor (`api.interceptors.request.use`, api.ts 20-29):
`const token = localStorage.getItem('token'); if (token) config.headers.Authorization
= `Bearer ${token}``.  JavaScript truthiness: both `null` and the empty
string leave the config untouched. -/
def requestInterceptor (st : Store) (config : Request) : Request :=
  match getItem st TOKEN_KEY with
  | some token => if token = "" then config else { authHeader := some ("Bearer " ++ token) }
  | none => config

/-- The error rejected by the refresh attempt (api.ts 63-71 distinguishes an
`AxiosError` carrying a response, any other `Error`, and a non-`Error`
throw). -/
inductive RefreshErr where
  /-- an `AxiosError` with a response whose body may carry `data.error` -/
  | axiosResp (dataError : Option String) : RefreshErr
  /-- any other `Error`, with its `message` -/
  | errMsg (msg : String) : RefreshErr
  /-- a thrown value that is not an `Error` -/
  | nonError : RefreshErr
deriving DecidableEq, Repr

/-- The toast emitted in the refresh-failure branch (api.ts 65-71):
`refreshError.response.data.error || 'Token refresh failed.'`, else
`refreshError.message`, else `'Token refresh failed.'`.  The `||` falls back
on an empty (falsy) `data.error`. -/
def toastOfRefreshError : RefreshErr → String
  | .axiosResp (some m) => if m = "" then "Token refresh failed." else m
  | .axiosResp none => "Token refresh failed."
  | .errMsg m => m
  | .nonError => "Token refresh failed."

/-- The toast emitted when a 401 arrives and no refresh token is stored
(api.ts 79). -/
def sessionExpiredMsg : String := "Session expired. Please log in again."

/-- Why a request's promise was rejected. -/
inductive RejectReason where
  /-- the HTTP error itself was propagated (`Promise.reject(error)`);
  `retried` records whether it came from the re-issued request -/
  | httpError (status : Nat) (retried : Bool) : RejectReason
  /-- the refresh attempt's own error was propagated
  (`Promise.reject(refreshError)`) -/
  | refreshFail (e : RefreshErr) : RejectReason
deriving DecidableEq, Repr

/-- The network's answers for one original request: the HTTP status of its
first send, the status of a re-issued send, and the outcome of a
`POST /refresh` exchange. -/
structure Env where
  firstStatus : Nat
  retryStatus : Nat
  refreshResult : Except RefreshErr String

/-- Everything observable about one trip of a request through the client:
the settled promise, the final `localStorage`, the bearer credentials sent
to `POST /refresh`, the `Authorization` headers of every send of the
(possibly re-issued) request, whether `store.dispatch(logout())` ran, and
the toasts shown. -/
structure Outcome where
  result : Except RejectReason Nat
  store : Store
  refreshSends : List String
  sent : List (Option String)
  loggedOut : Bool
  toasts : List String

/-- axios resolves a response iff `200 <= status < 300` (default
`validateStatus`); otherwise the response interceptor's error handler runs. -/
def isSuccess (status : Nat) : Bool := 200 ≤ status && status < 300

/-- One pass of a request through the axios instance `api` (api.ts 20-87):
the request interceptor attaches the stored token, the request is sent, and
on a non-2xx response the response interceptor runs.  `retried` is the
`originalRequest._retry` marker at the time the response comes back; the
handler sets it before refreshing, so the re-issued request
(`return api(originalRequest)`) re-enters this function with `retried =
true` and its 401 branch is skipped (`!originalRequest._retry` fails),
falling through to `Promise.reject(error)`. -/
def apiRun (env : Env) (st : Store) (retried : Bool) (config : Request) : Outcome :=
  let req := requestInterceptor st config
  let status := if retried then env.retryStatus else env.firstStatus
  if isSuccess status then
    { result := .ok status, store := st, refreshSends := [],
      sent := [req.authHeader], loggedOut := false, toasts := [] }
  else if h : status = 401 ∧ retried = false then
    match getItem st REFRESH_TOKEN_KEY with
    | some refreshToken =>
      match env.refreshResult with
      | .ok newAccessToken =>
        -- localStorage.setItem('token', newAccessToken);
        -- originalRequest.headers['Authorization'] = `Bearer ${newAccessToken}`;
        -- return api(originalRequest);
        let st' := setItem st TOKEN_KEY newAccessToken
        let retryConfig : Request := { authHeader := some ("Bearer " ++ newAccessToken) }
        let inner := apiRun env st' true retryConfig
        { inner with
            refreshSends := refreshToken :: inner.refreshSends,
            sent := req.authHeader :: inner.sent }
      | .error refreshError =>
        { result := .error (.refreshFail refreshError), store := clearAuthData st,
          refreshSends := [refreshToken], sent := [req.authHeader],
          loggedOut := true, toasts := [toastOfRefreshError refreshError] }
    | none =>
      { result := .error (.httpError status retried), store := clearAuthData st,
        refreshSends := [], sent := [req.authHeader],
        loggedOut := true, toasts := [sessionExpiredMsg] }
  else
    { result := .error (.httpError status retried), store := st, refreshSends := [],
      sent := [req.authHeader], loggedOut := false, toasts := [] }
termination_by (if retried then 0 else 1)
decreasing_by simp [h.2]

/-- An original (not yet retried) request through `api`. -/
def runRequest (env : Env) (st : Store) (config : Request) : Outcome :=
  apiRun env st false config

/-! ## `refreshAccessToken` (`src/utils/api.ts` 243-273)

Unlike the inline refresh of the 401 handler (which posts with the bare
`axios` client), `refreshAccessToken` posts `/refresh` through the shared
`api` instance, so its config passes through `requestInterceptor` before
the request leaves the client. -/

/-- The config `refreshAccessToken` builds: throws (`none`) when no refresh
token is stored, otherwise `headers: { Authorization: Bearer <refreshToken> }`
with an empty body. -/
def refreshAccessTokenConfig (st : Store) : Option Request :=
  match getItem st REFRESH_TOKEN_KEY with
  | none => none
  | some refreshToken => some { authHeader := some ("Bearer " ++ refreshToken) }

/-- The request `refreshAccessToken` actually puts on the wire: its config
after the shared instance's request interceptor has run. -/
def refreshAccessTokenOutbound (st : Store) : Option Request :=
  (refreshAccessTokenConfig st).map (requestInterceptor st)

/-- The request the 401 handler's inline refresh puts on the wire
(api.ts 45-51): a bare `axios.post` that no interceptor touches. -/
def inlineRefreshOutbound (refreshToken : String) : Request :=
  { authHeader := some ("Bearer " ++ refreshToken) }

/-! ## Session State (`src/store/authSlice.ts`) -/

/-- The `User` interface from `src/types/index.ts`. -/
structure User where
  email : String
  token : String
  isAuthenticated : Bool
deriving DecidableEq, Repr

/-- The `AuthState` interface from `src/types/index.ts`. -/
structure AuthState where
  user : Option User
  token : Option String
  isAuthenticated : Bool
deriving DecidableEq, Repr

/-- `initialState` of the auth slice. -/
def authInitialState : AuthState :=
  { user := none, token := none, isAuthenticated := false }

/-- The `setCredentials` reducer (authSlice.ts 17-24): payload is
`{ user: User | null; token: string }` and
`state.isAuthenticated = !!action.payload.token`. -/
def setCredentials (user : Option User) (token : String) (_s : AuthState) : AuthState :=
  { user := user, token := some token, isAuthenticated := token ≠ "" }

/-- The `logout` reducer (authSlice.ts 25-30): clears the credential store
as a side effect, then resets all three fields. -/
def logoutReducer (_s : AuthState) (st : Store) : AuthState × Store :=
  ({ user := none, token := none, isAuthenticated := false }, clearAuthData st)

/-- "The access token is non-empty" as a Boolean on the session state. -/
def tokenNonempty : Option String → Bool
  | none => false
  | some t => t ≠ ""

/-! ## Client-side writers of the durable store

For the refresh-token-absence invariant we collect every repository
operation that writes `localStorage`: `saveAuthData` (called by
`AuthForm.handleSubmit` after login/signup with `{access_token, user}`),
`clearAuthData` (called by `logout` and by the 401 handler), and a full
trip of a request through `api` (whose 401 handler may write the new
access token and clear the auth keys). -/

inductive ClientOp where
  /-- `AuthForm.handleSubmit`: `saveAuthData(access_token, user)` -/
  | authPersist (access_token : String) (userStr : String) : ClientOp
  /-- `clearAuthData()` -/
  | clearAuth : ClientOp
  /-- a request issued through `api`, including its 401/refresh handling -/
  | request (env : Env) (config : Request) : ClientOp

/-- Effect of one client operation on `localStorage`; `userStr` stands for
`JSON.stringify(user)`. -/
def applyClientOp (st : Store) : ClientOp → Store
  | .authPersist access_token userStr => saveAuthData (fun s => s) st access_token userStr
  | .clearAuth => clearAuthData st
  | .request env config => (runRequest env st config).store

/-- Effect of a sequence of client operations, oldest first. -/
def applyClientOps (st : Store) (ops : List ClientOp) : Store :=
  ops.foldl applyClientOp st

/-! ## Wishlist slice (`src/store/wishlistSlice.ts`) -/

/-- The `Product` interface from `src/types/index.ts` (`price: number` is
inert payload for the wishlist logic; it is embedded as an integer). -/
structure Product where
  id : String
  title : String
  price : Int
  currency : String
  platform : String
  imageUrl : String
  sourceLink : String
deriving DecidableEq, Repr

/-- The `WishlistState` interface. -/
structure WishlistState where
  items : List Product
deriving DecidableEq, Repr

/-- `setWishlist` reducer: `state.items = action.payload`. -/
def setWishlist (_s : WishlistState) (payload : List Product) : WishlistState :=
  { items := payload }

/-- `addToWishlist` reducer: pushes the payload only when no item with the
same `id` is already present. -/
def addToWishlist (s : WishlistState) (p : Product) : WishlistState :=
  match s.items.find? (fun item => item.id = p.id) with
  | some _ => s
  | none => { items := s.items ++ [p] }

/-- `removeFromWishlist` reducer: keeps the items whose `id` differs from
the payload. -/
def removeFromWishlist (s : WishlistState) (productId : String) : WishlistState :=
  { items := s.items.filter (fun item => item.id ≠ productId) }

/-- `clearWishlist` reducer. -/
def clearWishlist (_s : WishlistState) : WishlistState :=
  { items := [] }

/-- At most one entry per product id. -/
def uniqueIds (l : List Product) : Prop :=
  (l.map Product.id).Nodup

instance (l : List Product) : Decidable (uniqueIds l) := by
  unfold uniqueIds
  infer_instance

/-! ## Store lemmas -/

theorem find?_skip_ne (l : List (String × String)) (k k' : String)
    (hne : ¬ k' = k) :
    l.find? (fun a => !decide (a.1 = k) && decide (a.1 = k'))
      = l.find? (fun kv => decide (kv.1 = k')) := by
  have hfun : ∀ a : String × String,
      (!decide (a.1 = k) && decide (a.1 = k')) = decide (a.1 = k') := by
    intro a
    by_cases ha : a.1 = k'
    · have hak : ¬ a.1 = k := fun hk => hne (ha.symm.trans hk)
      simp [ha, hak, hne]
    · simp [ha]
  simp only [hfun]

theorem find?_skip_self (l : List (String × String)) (k : String) :
    l.find? (fun a => !decide (a.1 = k) && decide (a.1 = k)) = none := by
  apply List.find?_eq_none.mpr
  intro x _
  by_cases hx : x.1 = k <;> simp [hx]

theorem getItem_setItem (st : Store) (k v k' : String) :
    getItem (setItem st k v) k' = if k' = k then some v else getItem st k' := by
  unfold getItem setItem
  by_cases h : k' = k
  · simp [List.find?_cons, h]
  · have hne : ¬ (k = k') := fun hk => h hk.symm
    simp [List.find?_cons, hne, h, find?_skip_ne st k k' h]

theorem getItem_removeItem (st : Store) (k k' : String) :
    getItem (removeItem st k) k' = if k' = k then none else getItem st k' := by
  unfold getItem removeItem
  by_cases h : k' = k
  · subst h
    have hnone : List.find? (fun a : String × String => false) st = none :=
      List.find?_eq_none.mpr (by intro x _; simp)
    simp [hnone]
  · simp [h, find?_skip_ne st k k' h]

/-! ## Effect of `clearAuthData` and the refreshed request's header -/

theorem getItem_clearAuthData_token (st : Store) :
    getItem (clearAuthData st) TOKEN_KEY = none := by
  simp [clearAuthData, getItem_removeItem, TOKEN_KEY, USER_KEY]

theorem getItem_clearAuthData_user (st : Store) :
    getItem (clearAuthData st) USER_KEY = none := by
  simp [clearAuthData, getItem_removeItem]

theorem getItem_clearAuthData_refresh (st : Store) :
    getItem (clearAuthData st) REFRESH_TOKEN_KEY = getItem st REFRESH_TOKEN_KEY := by
  simp [clearAuthData, getItem_removeItem, TOKEN_KEY, USER_KEY, REFRESH_TOKEN_KEY]

/-- Behavior of a 401 with no stored refresh token (shared by the session
claims): one send, no refresh call, logout plus credential clearing, the
session-expired toast, and rejection with the original 401 error. -/
theorem run401_without_refresh_token (env : Env) (st : Store) (config : Request)
    (h401 : env.firstStatus = 401)
    (habs : getItem st REFRESH_TOKEN_KEY = none) :
    (runRequest env st config).refreshSends = [] ∧
    (runRequest env st config).sent = [(requestInterceptor st config).authHeader] ∧
    (runRequest env st config).loggedOut = true ∧
    getItem (runRequest env st config).store TOKEN_KEY = none ∧
    getItem (runRequest env st config).store USER_KEY = none ∧
    (runRequest env st config).toasts = [sessionExpiredMsg] ∧
    (runRequest env st config).result = .error (.httpError 401 false) := by
  unfold runRequest
  simp [apiRun, h401, habs, getItem_clearAuthData_token, getItem_clearAuthData_user,
    show isSuccess 401 = false from rfl]

/-! ## Claim theorems -/

/-- C2: a 401 with no refresh token in the credential store clears the
session (global logout and credential clearing), sends nothing to the
refresh endpoint, does not retry the original request, shows the
session-expired message, and rejects the caller's promise with the original
401 error. -/
theorem C2_no_refresh_token_clears_session (env : Env) (st : Store) (config : Request)
    (h401 : env.firstStatus = 401)
    (habs : getItem st REFRESH_TOKEN_KEY = none) :
    (runRequest env st config).refreshSends = [] ∧
    (runRequest env st config).sent = [(requestInterceptor st config).authHeader] ∧
    (runRequest env st config).loggedOut = true ∧
    getItem (runRequest env st config).store TOKEN_KEY = none ∧
    getItem (runRequest env st config).store USER_KEY = none ∧
    (runRequest env st config).toasts = [sessionExpiredMsg] ∧
    (runRequest env st config).result = .error (.httpError 401 false) :=
  run401_without_refresh_token env st config h401 habs

/-- Witness for C2 at a concrete input. -/
theorem C2_no_refresh_token_clears_session_witness :
    (runRequest ⟨401, 200, .ok "n"⟩ [("token", "old")] ⟨none⟩).refreshSends = [] ∧
    (runRequest ⟨401, 200, .ok "n"⟩ [("token", "old")] ⟨none⟩).sent =
      [(requestInterceptor [("token", "old")] ⟨none⟩).authHeader] ∧
    (runRequest ⟨401, 200, .ok "n"⟩ [("token", "old")] ⟨none⟩).loggedOut = true ∧
    getItem (runRequest ⟨401, 200, .ok "n"⟩ [("token", "old")] ⟨none⟩).store TOKEN_KEY = none ∧
    getItem (runRequest ⟨401, 200, .ok "n"⟩ [("token", "old")] ⟨none⟩).store USER_KEY = none ∧
    (runRequest ⟨401, 200, .ok "n"⟩ [("token", "old")] ⟨none⟩).toasts = [sessionExpiredMsg] ∧
    (runRequest ⟨401, 200, .ok "n"⟩ [("token", "old")] ⟨none⟩).result =
      .error (.httpError 401 false) :=
  C2_no_refresh_token_clears_session ⟨401, 200, .ok "n"⟩ [("token", "old")] ⟨none⟩ rfl rfl

theorem saveAuthData_preserves_refresh {U : Type} (stringify : U → String)
    (st : Store) (t : String) (u : U) :
    getItem (saveAuthData stringify st t u) REFRESH_TOKEN_KEY
      = getItem st REFRESH_TOKEN_KEY := by
  simp [saveAuthData, getItem_setItem, TOKEN_KEY, USER_KEY, REFRESH_TOKEN_KEY]

/-- A re-issued request (the `_retry` marker set) never touches
`localStorage`: it either resolves or rejects. -/
theorem apiRun_retried_store (env : Env) (st : Store) (config : Request) :
    (apiRun env st true config).store = st := by
  by_cases hs : isSuccess env.retryStatus <;> simp [apiRun, hs]

theorem runRequest_preserves_refresh (env : Env) (st : Store) (config : Request) :
    getItem (runRequest env st config).store REFRESH_TOKEN_KEY
      = getItem st REFRESH_TOKEN_KEY := by
  unfold runRequest
  by_cases hs : isSuccess env.firstStatus
  · simp [apiRun, hs]
  · by_cases h401 : env.firstStatus = 401
    · cases hrt : getItem st REFRESH_TOKEN_KEY with
      | none =>
        simp [apiRun, hs, h401, hrt, getItem_clearAuthData_refresh,
          show isSuccess 401 = false from rfl]
      | some rt =>
        cases henv : env.refreshResult with
        | ok newTok =>
          have hrt' : getItem st "refresh_token" = some rt := hrt
          by_cases hs2 : isSuccess env.retryStatus <;>
            simp [apiRun, hs, h401, hrt, hrt', henv, hs2, getItem_setItem,
              TOKEN_KEY, REFRESH_TOKEN_KEY, show isSuccess 401 = false from rfl]
        | error e =>
          simp [apiRun, hs, h401, hrt, henv, getItem_clearAuthData_refresh,
            show isSuccess 401 = false from rfl]
    · simp [apiRun, hs, h401]

theorem applyClientOp_preserves_refresh (st : Store) (op : ClientOp) :
    getItem (applyClientOp st op) REFRESH_TOKEN_KEY = getItem st REFRESH_TOKEN_KEY := by
  cases op with
  | authPersist t u => exact saveAuthData_preserves_refresh (fun s => s) st t u
  | clearAuth => exact getItem_clearAuthData_refresh st
  | request env config => exact runRequest_preserves_refresh env st config

theorem applyClientOps_preserves_refresh (ops : List ClientOp) (st : Store) :
    getItem (applyClientOps st ops) REFRESH_TOKEN_KEY = getItem st REFRESH_TOKEN_KEY := by
  induction ops generalizing st with
  | nil => rfl
  | cons op rest ih =>
    calc getItem (applyClientOps (applyClientOp st op) rest) REFRESH_TOKEN_KEY
        = getItem (applyClientOp st op) REFRESH_TOKEN_KEY := ih _
      _ = getItem st REFRESH_TOKEN_KEY := applyClientOp_preserves_refresh st op

/-- C4: no client-side operation writes the `refresh_token` key —
`saveAuthData` (also as invoked by the login/signup handler), `clearAuthData`
and a full request trip through `api` (whose 401 handler writes only the new
access token) all leave it untouched — so after any sequence of client
operations starting with no stored refresh token, a 401 finds the refresh
token absent, sends nothing to the refresh endpoint, and takes the logout
branch. -/
theorem C4_refresh_token_never_written :
    (∀ (U : Type) (stringify : U → String) (st : Store) (t : String) (u : U),
      getItem (saveAuthData stringify st t u) REFRESH_TOKEN_KEY
        = getItem st REFRESH_TOKEN_KEY) ∧
    (∀ st : Store, getItem (clearAuthData st) REFRESH_TOKEN_KEY
        = getItem st REFRESH_TOKEN_KEY) ∧
    (∀ (env : Env) (st : Store) (config : Request),
      getItem (runRequest env st config).store REFRESH_TOKEN_KEY
        = getItem st REFRESH_TOKEN_KEY) ∧
    (∀ (st : Store) (ops : List ClientOp),
      getItem st REFRESH_TOKEN_KEY = none →
      getItem (applyClientOps st ops) REFRESH_TOKEN_KEY = none) ∧
    (∀ (st : Store) (ops : List ClientOp) (env : Env) (config : Request),
      getItem st REFRESH_TOKEN_KEY = none →
      env.firstStatus = 401 →
      (runRequest env (applyClientOps st ops) config).refreshSends = [] ∧
      (runRequest env (applyClientOps st ops) config).loggedOut = true) := by
  refine ⟨fun U stringify st t u => saveAuthData_preserves_refresh stringify st t u,
    getItem_clearAuthData_refresh,
    runRequest_preserves_refresh,
    fun st ops h0 => (applyClientOps_preserves_refresh ops st).trans h0,
    fun st ops env config h0 h401 => ?_⟩
  have habs : getItem (applyClientOps st ops) REFRESH_TOKEN_KEY = none :=
    (applyClientOps_preserves_refresh ops st).trans h0
  have h := run401_without_refresh_token env (applyClientOps st ops) config h401 habs
  exact ⟨h.1, h.2.2.1⟩

/-- Witness for C4: a concrete run starting from a store with an access
token but no refresh token, after a login persist and a clear. -/
theorem C4_refresh_token_never_written_witness :
    getItem (applyClientOps [("token", "x")]
      [ClientOp.authPersist "a" "u", ClientOp.clearAuth]) REFRESH_TOKEN_KEY = none ∧
    (runRequest ⟨401, 200, .ok "n"⟩
      (applyClientOps [("token", "x")]
        [ClientOp.authPersist "a" "u", ClientOp.clearAuth]) ⟨none⟩).refreshSends = [] ∧
    (runRequest ⟨401, 200, .ok "n"⟩
      (applyClientOps [("token", "x")]
        [ClientOp.authPersist "a" "u", ClientOp.clearAuth]) ⟨none⟩).loggedOut = true := by
  have h := C4_refresh_token_never_written
  have h4 := h.2.2.2.1 [("token", "x")]
    [ClientOp.authPersist "a" "u", ClientOp.clearAuth] rfl
  have h5 := h.2.2.2.2 [("token", "x")]
    [ClientOp.authPersist "a" "u", ClientOp.clearAuth] ⟨401, 200, .ok "n"⟩ ⟨none⟩ rfl rfl
  exact ⟨h4, h5.1, h5.2⟩

/-- C5 counterexample: a store holding a token but no serialized user.
`getStoredAuth` returns nothing but does NOT clear the record — the token
key survives — contradicting the claim that every non-loading case clears
both keys. -/
theorem C5_counterexample_missing_user_not_purged :
    (getStoredAuth (fun s => some s) [("token", "t")]).1 = none ∧
    (getStoredAuth (fun s => some s) [("token", "t")]).2 = [("token", "t")] ∧
    getItem (getStoredAuth (fun s => some s) [("token", "t")]).2 TOKEN_KEY = some "t" := by
  refine ⟨rfl, rfl, rfl⟩

/-- C5 (amended): `getStoredAuth` returns `{token, user}` when both keys
are present (and non-empty) and the user parses; when both are present but
the user does not parse, it clears both keys and returns nothing; when
either key is missing — or holds the empty string, which the truthiness
guard treats as absent — it returns nothing WITHOUT clearing the store. -/
theorem C5_load_behavior (U : Type) (parse : String → Option U) (st : Store) :
    (∀ (t us : String) (u : U),
      getItem st TOKEN_KEY = some t → getItem st USER_KEY = some us →
      ¬ t = "" → ¬ us = "" → parse us = some u →
      getStoredAuth parse st = (some (t, u), st)) ∧
    (∀ t us : String,
      getItem st TOKEN_KEY = some t → getItem st USER_KEY = some us →
      ¬ t = "" → ¬ us = "" → parse us = none →
      getStoredAuth parse st = (none, clearAuthData st) ∧
      getItem (clearAuthData st) TOKEN_KEY = none ∧
      getItem (clearAuthData st) USER_KEY = none) ∧
    ((getItem st TOKEN_KEY = none ∨ getItem st USER_KEY = none) →
      getStoredAuth parse st = (none, st)) ∧
    (∀ t us : String,
      getItem st TOKEN_KEY = some t → getItem st USER_KEY = some us →
      (t = "" ∨ us = "") →
      getStoredAuth parse st = (none, st)) := by
  refine ⟨?_, ?_, ?_, ?_⟩
  · intro t us u hT hU ht hus hp
    simp [getStoredAuth, hT, hU, ht, hus, hp]
  · intro t us hT hU ht hus hp
    exact ⟨by simp [getStoredAuth, hT, hU, ht, hus, hp],
      getItem_clearAuthData_token st, getItem_clearAuthData_user st⟩
  · intro h
    rcases h with h | h
    · cases hU : getItem st USER_KEY <;> simp [getStoredAuth, h, hU]
    · cases hT : getItem st TOKEN_KEY <;> simp [getStoredAuth, h, hT]
  · intro t us hT hU h
    simp [getStoredAuth, hT, hU, h]

/-- Witness for the amended C5: a well-formed record loads, and a record
with an unparseable user is purged. -/
theorem C5_load_behavior_witness :
    getStoredAuth (fun s => some s) [("token", "t"), ("auth_user", "u")]
      = (some ("t", "u"), [("token", "t"), ("auth_user", "u")]) ∧
    getStoredAuth (fun _ : String => (none : Option String))
        [("token", "t"), ("auth_user", "bad")]
      = (none, clearAuthData [("token", "t"), ("auth_user", "bad")]) :=
  ⟨(C5_load_behavior String (fun s => some s)
      [("token", "t"), ("auth_user", "u")]).1 "t" "u" "u" rfl rfl
      (by decide) (by decide) rfl,
   ((C5_load_behavior String (fun _ => none)
      [("token", "t"), ("auth_user", "bad")]).2.1 "t" "bad" rfl rfl
      (by decide) (by decide) rfl).1⟩

/-- C6 counterexample: a store whose `'token'` key holds the empty string.
An access token IS stored (the key is present), yet the `if (token)` guard
is falsy and the interceptor attaches no `Authorization` header — in
particular not `Bearer <token>` (`"Bearer "`) exactly — so the claim's
stored-token side fails at this input. -/
theorem C6_counterexample_empty_token_stored :
    getItem [("token", "")] TOKEN_KEY = some "" ∧
    (requestInterceptor [("token", "")] ⟨none⟩).authHeader = none ∧
    (requestInterceptor [("token", "")] ⟨none⟩).authHeader
      ≠ some ("Bearer " ++ "") := by
  exact ⟨rfl, rfl, by decide⟩

/-- C6 (amended): for a fresh outbound request (no pre-set `Authorization`
header), the interceptor attaches `Bearer <token>` exactly when a NON-EMPTY
access token is stored under `'token'`; when no token is stored — or the
stored token is the empty string, which the `if (token)` truthiness guard
treats as absent — no `Authorization` header is attached.  The three
branches are exhaustive over the stored value. -/
theorem C6_bearer_header (st : Store) (config : Request)
    (hfresh : config.authHeader = none) :
    (getItem st TOKEN_KEY = none → (requestInterceptor st config).authHeader = none) ∧
    (getItem st TOKEN_KEY = some "" → (requestInterceptor st config).authHeader = none) ∧
    (∀ t : String, getItem st TOKEN_KEY = some t → ¬ t = "" →
      (requestInterceptor st config).authHeader = some ("Bearer " ++ t)) := by
  refine ⟨?_, ?_, ?_⟩
  · intro h
    simp [requestInterceptor, h, hfresh]
  · intro h
    simp [requestInterceptor, h, hfresh]
  · intro t h ht
    simp [requestInterceptor, h, ht]

/-- Witness for the amended C6: no stored token attaches nothing, a stored
empty token attaches nothing, and a stored non-empty token is attached as a
Bearer header. -/
theorem C6_bearer_header_witness :
    (requestInterceptor [] ⟨none⟩).authHeader = none ∧
    (requestInterceptor [("token", "")] ⟨none⟩).authHeader = none ∧
    (requestInterceptor [("token", "abc")] ⟨none⟩).authHeader
      = some ("Bearer " ++ "abc") :=
  ⟨(C6_bearer_header [] ⟨none⟩ rfl).1 rfl,
   (C6_bearer_header [("token", "")] ⟨none⟩ rfl).2.1 rfl,
   (C6_bearer_header [("token", "abc")] ⟨none⟩ rfl).2.2 "abc" rfl (by decide)⟩

/-- C7 (code bug): `refreshAccessToken` sets `Authorization: Bearer
<refresh token>` on its config, but it posts through the shared `api`
instance, whose request interceptor overwrites the header with the stored
(expired) ACCESS token before the request leaves the client.  At a store
holding both tokens, the wire request carries `Bearer expired`, not
`Bearer r`; the inline refresh of the 401 handler (bare `axios`, no
interceptors) does send the refresh token. -/
theorem C7_refresh_bearer_clobbered :
    refreshAccessTokenOutbound [("token", "expired"), ("refresh_token", "r")]
      = some ⟨some ("Bearer " ++ "expired")⟩ ∧
    inlineRefreshOutbound "r" = ⟨some ("Bearer " ++ "r")⟩ ∧
    ("Bearer " ++ "expired") ≠ ("Bearer " ++ "r") := by
  refine ⟨rfl, rfl, by decide⟩

/-- C8: `setCredentials` replaces all three session fields together and
recomputes `isAuthenticated` as `!!token`; `logout` resets the state to the
initial one and clears the credential store; after either mutation,
`isAuthenticated` is true iff the access token is non-empty. -/
theorem C8_session_invariant (s : AuthState) (u : Option User) (t : String) (st : Store) :
    (setCredentials u t s).user = u ∧
    (setCredentials u t s).token = some t ∧
    ((setCredentials u t s).isAuthenticated = true ↔ ¬ t = "") ∧
    (setCredentials u t s).isAuthenticated
      = tokenNonempty (setCredentials u t s).token ∧
    (logoutReducer s st).1 = authInitialState ∧
    (logoutReducer s st).1.isAuthenticated
      = tokenNonempty (logoutReducer s st).1.token ∧
    (logoutReducer s st).2 = clearAuthData st := by
  refine ⟨rfl, rfl, by simp [setCredentials], ?_, rfl, rfl, rfl⟩
  simp [setCredentials, tokenNonempty]

/-- C9 counterexample: saving the EMPTY token round-trips to nothing — the
truthiness guard `if (!token ...)` in `getStoredAuth` treats the stored
empty string as absent — so save-then-load does not return the same token
for every token string. -/
theorem C9_counterexample_empty_token :
    (getStoredAuth (fun s => some s) (saveAuthData (fun s => s) ([] : Store) "" "u")).1
      = none ∧
    (getStoredAuth (fun s => some s) (saveAuthData (fun s => s) ([] : Store) "" "u")).1
      ≠ some ("", "u") := by
  exact ⟨rfl, by decide⟩

/-- C9 (amended): for every NON-EMPTY token and every structurally
serializable user — one whose serialization is non-empty and parses back to
an equal value, as `JSON.stringify`/`JSON.parse` do for plain objects —
`saveAuthData` followed by `getStoredAuth` returns the same token and an
equivalent user, leaving the store as saved. -/
theorem C9_save_load_roundtrip (U : Type) (stringify : U → String)
    (parse : String → Option U) (st : Store) (tok : String) (u : U)
    (htok : ¬ tok = "") (hser : ¬ stringify u = "")
    (hparse : parse (stringify u) = some u) :
    getStoredAuth parse (saveAuthData stringify st tok u)
      = (some (tok, u), saveAuthData stringify st tok u) := by
  have hT : getItem (saveAuthData stringify st tok u) TOKEN_KEY = some tok := by
    simp [saveAuthData, getItem_setItem, TOKEN_KEY, USER_KEY]
  have hU : getItem (saveAuthData stringify st tok u) USER_KEY
      = some (stringify u) := by
    simp [saveAuthData, getItem_setItem]
  simp [getStoredAuth, hT, hU, htok, hser, hparse]

/-- Witness for the amended C9 at a concrete serializable user. -/
theorem C9_save_load_roundtrip_witness :
    getStoredAuth (fun s => some s) (saveAuthData (fun s => s) ([] : Store) "tok" "usr")
      = (some ("tok", "usr"), saveAuthData (fun s => s) ([] : Store) "tok" "usr") :=
  C9_save_load_roundtrip String (fun s => s) (fun s => some s) [] "tok" "usr"
    (by decide) (by decide) rfl

/-- C10 counterexample: `setWishlist` installs its payload verbatim, so a
payload that itself contains two entries with the same id leaves the
client-side mirror with a duplicate — the at-most-one-entry-per-id claim
fails for the `setWishlist` operation. -/
theorem C10_counterexample_setWishlist_duplicate :
    ¬ uniqueIds (setWishlist ⟨[]⟩
      [⟨"1", "t", 0, "USD", "ebay", "i", "s"⟩,
       ⟨"1", "t", 0, "USD", "ebay", "i", "s"⟩]).items ∧
    (setWishlist ⟨[]⟩
      [⟨"1", "t", 0, "USD", "ebay", "i", "s"⟩,
       ⟨"1", "t", 0, "USD", "ebay", "i", "s"⟩]).items.length = 2 := by
  decide

/-- C10 (amended): `addToWishlist`, `removeFromWishlist` and
`clearWishlist` preserve the at-most-one-entry-per-id invariant, and adding
a product whose id is already present is a no-op (idempotent add);
`setWishlist` replaces the mirror with its payload verbatim, so uniqueness
after `setWishlist` holds exactly when the payload itself is duplicate-free. -/
theorem C10_wishlist_unique_ids (s : WishlistState) (p : Product) (pid : String)
    (payload : List Product) :
    (uniqueIds s.items → uniqueIds (addToWishlist s p).items) ∧
    (uniqueIds s.items → uniqueIds (removeFromWishlist s pid).items) ∧
    uniqueIds (clearWishlist s).items ∧
    (uniqueIds payload → uniqueIds (setWishlist s payload).items) ∧
    (∀ q : Product, q ∈ s.items → q.id = p.id → addToWishlist s p = s) := by
  refine ⟨?_, ?_, by simp [uniqueIds, clearWishlist], fun h => h, ?_⟩
  · intro hu
    unfold addToWishlist
    cases hf : s.items.find? (fun item => item.id = p.id) with
    | some q => exact hu
    | none =>
      have hnotin : p.id ∉ s.items.map Product.id := by
        intro hmem
        obtain ⟨q, hq, hid⟩ := List.mem_map.mp hmem
        have hq' := List.find?_eq_none.mp hf q hq
        simp only [decide_eq_true_eq] at hq'
        exact hq' hid
      unfold uniqueIds at *
      simp only [List.map_append, List.map_cons, List.map_nil]
      rw [List.nodup_append]
      exact ⟨hu, List.nodup_singleton _, by simpa using hnotin⟩
  · intro hu
    unfold removeFromWishlist uniqueIds at *
    exact List.Nodup.sublist ((List.filter_sublist _).map _) hu
  · intro q hq hid
    unfold addToWishlist
    cases hf : s.items.find? (fun item => item.id = p.id) with
    | some r => rfl
    | none =>
      have hq' := List.find?_eq_none.mp hf q hq
      simp only [decide_eq_true_eq] at hq'
      exact absurd hid hq'

/-- Witness for the amended C10: adding a product whose id already exists
changes nothing, and the invariant survives an add and a remove. -/
theorem C10_wishlist_unique_ids_witness :
    uniqueIds (addToWishlist ⟨[⟨"1", "a", 1, "USD", "e", "i", "s"⟩]⟩
      ⟨"2", "b", 2, "USD", "e", "i", "s"⟩).items ∧
    uniqueIds (removeFromWishlist ⟨[⟨"1", "a", 1, "USD", "e", "i", "s"⟩]⟩ "1").items ∧
    addToWishlist ⟨[⟨"1", "a", 1, "USD", "e", "i", "s"⟩]⟩
      ⟨"1", "z", 9, "EUR", "g", "j", "t"⟩ = ⟨[⟨"1", "a", 1, "USD", "e", "i", "s"⟩]⟩ :=
  ⟨(C10_wishlist_unique_ids ⟨[⟨"1", "a", 1, "USD", "e", "i", "s"⟩]⟩
      ⟨"2", "b", 2, "USD", "e", "i", "s"⟩ "1" []).1 (by decide),
   (C10_wishlist_unique_ids ⟨[⟨"1", "a", 1, "USD", "e", "i", "s"⟩]⟩
      ⟨"2", "b", 2, "USD", "e", "i", "s"⟩ "1" []).2.1 (by decide),
   (C10_wishlist_unique_ids ⟨[⟨"1", "a", 1, "USD", "e", "i", "s"⟩]⟩
      ⟨"1", "z", 9, "EUR", "g", "j", "t"⟩ "1" []).2.2.2.2
     ⟨"1", "a", 1, "USD", "e", "i", "s"⟩ (by simp) rfl⟩
